import Mathlib

/-!
Verification of the natural-language specification of the LLM-Agents backend
against its source code.

The development shallowly embeds the relevant Python functions:

* `src/backend/src/apis/documents.py` — the `/documents/query` endpoint
  (`query_documents`) and the cosine-similarity helper
  (`_calculate_similarity`),
* `src/backend/src/agents/document_processor.py` — the word-based text
  splitter (`DocumentProcessor._split_text`),
* `src/backend/src/agents/sql_agent.py` — prompt assembly
  (`SQLAgent.generate_sql_query`) and query execution
  (`SQLAgent.execute_query`),
* `src/backend/src/apis/database.py` — the `/database/query` endpoint,
* `src/backend/src/common/dependencies.py` — `get_user_permissions`,
* `src/backend/src/apis/auth.py` — `signup`.

Python strings are modelled as `List Char` wherever character-level
operations (`split`, `strip`, `join`, slicing) matter, and as Lean `String`
elsewhere.  Python floats are modelled as real numbers; `x ** 0.5` on a
non-negative float is modelled as `Real.sqrt`.  External effects (Mongo
queries, the embedding API, the chat-completion API, SQL execution) are
modelled as explicit environment records passed to the embedded handlers, so
each handler is a pure function of its request and environment.
-/

/-! ### Python string primitives (`List Char` model) -/

/-- Python `str.split()` (no separator): split on runs of whitespace,
discarding empty fragments.  The accumulator holds the current in-progress
word, reversed. -/
def pySplitAux : List Char → List Char → List (List Char)
  | [], cur => if cur = [] then [] else [cur.reverse]
  | c :: cs, cur =>
    if c.isWhitespace then
      if cur = [] then pySplitAux cs [] else cur.reverse :: pySplitAux cs []
    else
      pySplitAux cs (c :: cur)

/-- Python `text.split()` with no arguments. -/
def pySplit (s : List Char) : List (List Char) :=
  pySplitAux s []

/-- Python `sep.join(parts)`. -/
def pyJoin {α : Type} (sep : List α) : List (List α) → List α
  | [] => []
  | [w] => w
  | w :: ws => w ++ sep ++ pyJoin sep ws

/-- Python `s.strip()` with no arguments: drop leading and trailing
whitespace. -/
def pyStrip (s : List Char) : List Char :=
  ((s.dropWhile Char.isWhitespace).reverse.dropWhile Char.isWhitespace).reverse

/-! ### Cosine similarity — `documents.py::_calculate_similarity` -/

/-- `sum(a * b for a, b in zip(vec1, vec2))`. -/
def dotProduct (vec1 vec2 : List ℝ) : ℝ :=
  ((vec1.zip vec2).map (fun p => p.1 * p.2)).sum

/-- `sum(a * a for a in vec)`. -/
def sumSquares (vec : List ℝ) : ℝ :=
  (vec.map (fun a => a * a)).sum

/-- `sum(a * a for a in vec) ** 0.5`: the Euclidean magnitude computed by
`_calculate_similarity`. -/
noncomputable def magnitude (vec : List ℝ) : ℝ :=
  Real.sqrt (sumSquares vec)

/-- `documents.py::_calculate_similarity(vec1, vec2)`: cosine similarity
with a zero-magnitude guard returning `0`. -/
noncomputable def calculate_similarity (vec1 vec2 : List ℝ) : ℝ :=
  if magnitude vec1 * magnitude vec2 = 0 then 0
  else dotProduct vec1 vec2 / (magnitude vec1 * magnitude vec2)

/-! ### The `/documents/query` endpoint — `documents.py::query_documents` -/

/-- A record of the Mongo `document_chunks` collection, as used by the query
endpoint: raw text, embedding vector, owning document id. -/
structure DocChunk where
  text : List Char
  embedding : List ℝ
  document_id : String

/-- The part of a Mongo `documents` record used when building sources. -/
structure DocRecord where
  filename : String
deriving DecidableEq

/-- One entry of the `sources` list in the endpoint response. -/
structure SourceInfo where
  filename : String
  chunk_text : List Char
deriving DecidableEq

/-- The endpoint's success payload. -/
structure QueryResponse where
  response : String
  sources : List SourceInfo
deriving DecidableEq

/-- A FastAPI `HTTPException`: status code and detail string. -/
structure HTTPError where
  status : ℕ
  detail : String
deriving DecidableEq

/-- Starlette renders `str(HTTPException(c, d))` as `"c: d"`. -/
def strOfHTTPError (e : HTTPError) : String :=
  toString e.status ++ ": " ++ e.detail

/-- The JSON request body of `/documents/query`: both fields may be absent,
and `document_ids` may be a single string or a list of strings. -/
structure QueryRequest where
  prompt : Option (List Char)
  document_ids : Option (Sum String (List String))

/-- Python truthiness of the `document_ids` field (`not request["document_ids"]`
combined with the `"document_ids" not in request` test). -/
def pyTruthyIds : Option (Sum String (List String)) → Bool
  | none => false
  | some (Sum.inl s) => !(s == "")
  | some (Sum.inr l) => !(l == [])

/-- `if isinstance(document_ids, str): document_ids = [document_ids]`. -/
def normalize_document_ids : Sum String (List String) → List String
  | Sum.inl s => [s]
  | Sum.inr l => l

/-- The environment of one `/documents/query` call: the embedding returned
for the prompt, the chunk records found for the requested document ids, the
chat-completion call (a function of the context block), and the `documents`
collection lookup used when building sources. -/
structure QueryEnv where
  queryEmbedding : List ℝ
  chunksFound : List DocChunk
  completion : List Char → String
  findDoc : String → Option DocRecord

/-- `results` after `results.sort(key=lambda x: x["similarity"], reverse=True)`:
each chunk paired with its similarity to the query embedding, stably sorted
by descending similarity (Python's sort is stable; `mergeSort` is the stable
sort of the embedding). -/
noncomputable def rank_results (query_embedding : List ℝ) (chunks : List DocChunk) :
    List (DocChunk × ℝ) :=
  (chunks.map (fun c => (c, calculate_similarity query_embedding c.embedding))).mergeSort
    (fun a b => decide (b.2 ≤ a.2))

/-- `top_chunks = results[:5]`. -/
noncomputable def top_chunks (query_embedding : List ℝ) (chunks : List DocChunk) :
    List (DocChunk × ℝ) :=
  (rank_results query_embedding chunks).take 5

/-- The body of the `try:` block of `query_documents`: validation, chunk
fetch, ranking, context assembly, completion call, sources assembly.
`HTTPException`s raised inside the block are returned as `Except.error`. -/
noncomputable def query_documents_inner (req : QueryRequest) (env : QueryEnv) :
    Except HTTPError QueryResponse :=
  match req.prompt with
  | none => Except.error ⟨400, "Prompt is required"⟩
  | some prompt =>
    if pyStrip prompt = [] then Except.error ⟨400, "Prompt is required"⟩
    else if pyTruthyIds req.document_ids = false then
      Except.error ⟨400, "At least one document ID is required"⟩
    else
      let chunks := env.chunksFound
      if chunks.isEmpty then
        Except.ok ⟨"No document chunks found for the specified documents.", []⟩
      else
        let top := top_chunks env.queryEmbedding chunks
        let context := pyJoin ['\n', '\n'] (top.map (fun r => r.1.text))
        let response := env.completion context
        let sources := top.filterMap (fun r =>
          (env.findDoc r.1.document_id).map (fun d =>
            ⟨d.filename,
             if 100 < r.1.text.length then r.1.text.take 100 ++ ['.', '.', '.']
             else r.1.text⟩))
        Except.ok ⟨response, sources⟩

/-- `documents.py::query_documents`: the whole handler.  The trailing
`except Exception as e: raise HTTPException(status_code=500, detail=str(e))`
catches every exception raised in the `try:` block — including the
`HTTPException`s the block itself raises, because FastAPI's `HTTPException`
subclasses `Exception` — and re-raises it as a 500 whose detail is `str(e)`. -/
noncomputable def query_documents (req : QueryRequest) (env : QueryEnv) :
    Except HTTPError QueryResponse :=
  match query_documents_inner req env with
  | Except.ok r => Except.ok r
  | Except.error e => Except.error ⟨500, strOfHTTPError e⟩

/-! ### Text splitting — `document_processor.py::DocumentProcessor._split_text` -/

/-- The `for word in words:` loop of `_split_text`, carrying the emitted
chunks implicitly: the arguments are the remaining words, `current_chunk`
and `current_size`.  After the loop, `if current_chunk:` appends the final
chunk. -/
def split_text_go (chunk_size : ℕ) : List (List Char) → List (List Char) → ℕ → List (List Char)
  | [], cur, _ => if cur = [] then [] else [pyJoin [' '] cur]
  | w :: ws, cur, size =>
    if size + w.length + 1 > chunk_size then
      pyJoin [' '] cur :: split_text_go chunk_size ws [w] w.length
    else
      split_text_go chunk_size ws (cur ++ [w]) (size + w.length + 1)

/-- `document_processor.py::DocumentProcessor._split_text(text, chunk_size)`. -/
def split_text (text : List Char) (chunk_size : ℕ) : List (List Char) :=
  split_text_go chunk_size (pySplit text) [] 0

/-! ### SQL agent — `sql_agent.py` and the `/database/query` endpoint -/

/-- One column record assembled by `SQLAgent.get_table_schema`:
`{"name": c[0], "type": c[1], "nullable": c[2]}` (the `is_nullable` catalog
value is a string). -/
structure ColumnInfo where
  name : String
  type : String
  nullable : String
deriving DecidableEq

/-- One foreign-key record assembled by `SQLAgent.get_table_schema`. -/
structure ForeignKeyInfo where
  column : String
  foreign_table : String
  foreign_column : String
deriving DecidableEq

/-- The schema dictionary assembled by `SQLAgent.get_table_schema`. -/
structure TableSchema where
  table_name : String
  columns : List ColumnInfo
  primary_keys : List String
  foreign_keys : List ForeignKeyInfo
deriving DecidableEq

/-- JSON string escaping as performed by `json.dumps` on the characters that
can occur in identifiers and questions (quote, backslash, and the common
control characters; other characters are emitted verbatim). -/
def jsonEscapeChar (c : Char) : List Char :=
  if c = '"' then ['\\', '"']
  else if c = '\\' then ['\\', '\\']
  else if c = '\n' then ['\\', 'n']
  else if c = '\t' then ['\\', 't']
  else if c = '\r' then ['\\', 'r']
  else [c]

/-- A JSON string literal: `json.dumps` of a Python `str`. -/
def jsonStr (s : String) : String :=
  "\"" ++ String.mk (s.data.flatMap jsonEscapeChar) ++ "\""

/-- `indent=2` padding at nesting depth `n`. -/
def pad (n : ℕ) : String :=
  String.mk (List.replicate (2 * n) ' ')

/-- Python `sep.join` on already-rendered `String` fragments. -/
def joinSep (sep : String) : List String → String
  | [] => ""
  | [x] => x
  | x :: y :: xs => x ++ sep ++ joinSep sep (y :: xs)

/-- `json.dumps` rendering of an array whose items are already rendered at
depth `ind + 1`; an empty array renders as `[]`. -/
def renderArr (ind : ℕ) (items : List String) : String :=
  match items with
  | [] => "[]"
  | _ => "[\n" ++ joinSep ",\n" items ++ "\n" ++ pad ind ++ "]"

/-- `json.dumps(column, indent=2)` rendering of one column object at
depth `ind`. -/
def renderColumn (ind : ℕ) (c : ColumnInfo) : String :=
  pad ind ++ "\x7b\n"
    ++ pad (ind + 1) ++ jsonStr "name" ++ ": " ++ jsonStr c.name ++ ",\n"
    ++ pad (ind + 1) ++ jsonStr "type" ++ ": " ++ jsonStr c.type ++ ",\n"
    ++ pad (ind + 1) ++ jsonStr "nullable" ++ ": " ++ jsonStr c.nullable ++ "\n"
    ++ pad ind ++ "\x7d"

/-- `json.dumps(fk, indent=2)` rendering of one foreign-key object at
depth `ind`. -/
def renderForeignKey (ind : ℕ) (fk : ForeignKeyInfo) : String :=
  pad ind ++ "\x7b\n"
    ++ pad (ind + 1) ++ jsonStr "column" ++ ": " ++ jsonStr fk.column ++ ",\n"
    ++ pad (ind + 1) ++ jsonStr "foreign_table" ++ ": " ++ jsonStr fk.foreign_table ++ ",\n"
    ++ pad (ind + 1) ++ jsonStr "foreign_column" ++ ": " ++ jsonStr fk.foreign_column ++ "\n"
    ++ pad ind ++ "\x7d"

/-- The rendering of a table schema's `"columns"` array inside
`json.dumps(table_schemas, indent=2)` (the array key sits at depth 1, its
items at depth 3). -/
def renderColumnsArr (s : TableSchema) : String :=
  renderArr 2 (s.columns.map (renderColumn 3))

/-- The rendering of a table schema's `"primary_keys"` array inside
`json.dumps(table_schemas, indent=2)`. -/
def renderPrimaryKeysArr (s : TableSchema) : String :=
  renderArr 2 (s.primary_keys.map (fun k => pad 3 ++ jsonStr k))

/-- The rendering of a table schema's `"foreign_keys"` array inside
`json.dumps(table_schemas, indent=2)`. -/
def renderForeignKeysArr (s : TableSchema) : String :=
  renderArr 2 (s.foreign_keys.map (renderForeignKey 3))

/-- `json.dumps` rendering of one table-schema object at depth 1 (the depth
at which schema objects sit inside `json.dumps(table_schemas, indent=2)`). -/
def renderSchema (s : TableSchema) : String :=
  pad 1 ++ "\x7b\n"
    ++ pad 2 ++ jsonStr "table_name" ++ ": " ++ jsonStr s.table_name ++ ",\n"
    ++ pad 2 ++ jsonStr "columns" ++ ": " ++ renderColumnsArr s ++ ",\n"
    ++ pad 2 ++ jsonStr "primary_keys" ++ ": " ++ renderPrimaryKeysArr s ++ ",\n"
    ++ pad 2 ++ jsonStr "foreign_keys" ++ ": " ++ renderForeignKeysArr s ++ "\n"
    ++ pad 1 ++ "\x7d"

/-- `json.dumps(context["table_schemas"], indent=2)`. -/
def renderSchemas (schemas : List TableSchema) : String :=
  renderArr 0 (schemas.map renderSchema)

/-- The literal pieces of the prompt f-string of
`SQLAgent.generate_sql_query` (the f-string body keeps the source's 8-space
indentation). -/
def sql_prompt_header : String :=
  "\n        Based on the following MCP context, generate a SQL query:\n        \n        Conversation History:\n        "

/-- Literal prompt piece between the history dump and the agent-state dump. -/
def sql_prompt_mid1 : String :=
  "\n        \n        Agent State:\n        "

/-- Literal prompt piece between the agent-state dump and the schema dump. -/
def sql_prompt_mid2 : String :=
  "\n        \n        Table Schemas:\n        "

/-- Literal prompt piece between the schema dump and the question. -/
def sql_prompt_mid3 : String :=
  "\n        \n        Natural Language Query:\n        "

/-- Literal tail of the prompt f-string. -/
def sql_prompt_tail : String :=
  "\n        \n        Generate a SQL query that answers this question.\n        "

/-- The prompt string assembled by `SQLAgent.generate_sql_query` and sent as
the user message of the chat-completion call.  The conversation-history and
agent-state JSON dumps depend on mutable MCP context state and are passed in
already rendered. -/
def generate_sql_prompt (historyJson agentStateJson : String)
    (table_schemas : List TableSchema) (natural_language_query : String) : String :=
  sql_prompt_header ++ historyJson
    ++ sql_prompt_mid1 ++ agentStateJson
    ++ sql_prompt_mid2 ++ renderSchemas table_schemas
    ++ sql_prompt_mid3 ++ natural_language_query
    ++ sql_prompt_tail

/-- `needle` occurs as a contiguous substring of `hay`. -/
def strContains (hay needle : String) : Prop :=
  needle.data <:+: hay.data

/-- The tabular result of `conn.execute(...)` in `SQLAgent.execute_query`:
the fetched rows and the result's column names. -/
structure SQLTable where
  rows : List (List String)
  cols : List String
deriving DecidableEq

/-- The dictionary returned by `SQLAgent.execute_query`: either
`{"success": True, "data": ..., "columns": ..., "row_count": ...}` or
`{"success": False, "error": str(e)}`. -/
inductive AgentQueryResult where
  | success (data : List (List String)) (columns : List String) (row_count : ℕ)
  | failure (error : String)
deriving DecidableEq

/-- `sql_agent.py::SQLAgent.execute_query`.  `engineConnected` models
`self.engine`; `dbExec` models running the query against the target
database, failing with `str(e)`.  The `ValueError` raised when no engine is
connected propagates (it is raised before the `try:`); an execution failure
is caught by the method's own `except Exception` and returned as a normal
`success=False` dictionary. -/
def SQLAgent_execute_query (engineConnected : Bool)
    (dbExec : Except String SQLTable) : Except String AgentQueryResult :=
  if engineConnected = false then
    Except.error "Database connection not established"
  else
    match dbExec with
    | Except.ok t => Except.ok (AgentQueryResult.success t.rows t.cols t.rows.length)
    | Except.error e => Except.ok (AgentQueryResult.failure e)

/-- The environment of one `/database/query` call: the stored connection
record (its connection string), and the outcome of executing the generated
SQL against the target database. -/
structure SQLQueryEnv where
  connection : Option String
  dbExec : Except String SQLTable

/-- `database.py::execute_query` (the `/database/query` endpoint): look up
the connection (404 if missing), connect, generate SQL, run it through
`SQLAgent.execute_query`, and return the agent's result dictionary.  The
trailing `except Exception as e` re-raises any escaping exception — the 404
`HTTPException` included, since it subclasses `Exception` — as a 500 whose
detail is `str(e)`. -/
def database_execute_query (env : SQLQueryEnv) : Except HTTPError AgentQueryResult :=
  let inner : Except String AgentQueryResult :=
    match env.connection with
    | none => Except.error (strOfHTTPError ⟨404, "Database connection not found"⟩)
    | some _ => SQLAgent_execute_query true env.dbExec
  match inner with
  | Except.ok r => Except.ok r
  | Except.error s => Except.error ⟨500, s⟩

/-! ### RBAC — `dependencies.py::get_user_permissions` and `schema.py` -/

/-- A row of the `permissions` table. -/
structure PermissionRow where
  id : ℕ
  name : String
deriving DecidableEq

/-- A row of the `roles` table. -/
structure RoleRow where
  id : ℕ
  name : String
deriving DecidableEq

/-- The part of a `users` row used by the RBAC check: the primary-role
foreign key `role_id` (nullable). -/
structure UserRec where
  id : ℕ
  role_id : Option ℕ
deriving DecidableEq

/-- The relational tables the RBAC check can see: `roles`, `permissions`,
the `role_permission` join table `(role_id, permission_id)`, and the
`user_role` join table `(user_id, role_id)` backing the many-to-many
`User.roles` relationship. -/
structure RBACDb where
  roles : List RoleRow
  permissions : List PermissionRow
  role_permissions : List (ℕ × ℕ)
  user_roles : List (ℕ × ℕ)

/-- `dependencies.py::get_user_permissions(user, db)`: `if not user.role_id:
return []` (Python falsiness covers both `None` and `0`), then the names of
the permissions joined to the single role `Role.id == user.role_id`. -/
def get_user_permissions (user : UserRec) (db : RBACDb) : List String :=
  match user.role_id with
  | none => []
  | some rid =>
    if rid = 0 then []
    else ((db.permissions.filter
            (fun p => db.role_permissions.contains (rid, p.id))).map
          (fun p => p.name))

/-- Modelled from the spec: "a user's effective permission set is the union
of permissions across all assigned roles", roles assigned through the
many-to-many `User↔Role` join table.  Used only to compare the spec's
description against `get_user_permissions`. -/
def spec_union_role_permissions (user : UserRec) (db : RBACDb) : List String :=
  ((db.permissions.filter
      (fun p => db.user_roles.any
        (fun ur => ur.1 == user.id && db.role_permissions.contains (ur.2, p.id)))).map
    (fun p => p.name))

/-! ### Signup — `auth.py::signup` and `config.py::AuthConfig` -/

/-- `AuthConfig.USER_ROLE_NAME`. -/
def USER_ROLE_NAME : String := "user"

/-- `AuthConfig.ADMIN_ROLE_NAME`. -/
def ADMIN_ROLE_NAME : String := "admin"

/-- A row of the `roles` table as seen by signup. -/
structure AuthRole where
  id : ℕ
  name : String
deriving DecidableEq

/-- A row of the `users` table as created by signup. -/
structure UserRow where
  mobile_number : String
  password_hash : String
  email : Option String
  role_id : Option ℕ
deriving DecidableEq

/-- The request body of `/auth/signup`. -/
structure UserCreate where
  mobile_number : String
  password : String
  email : Option String
deriving DecidableEq

/-- The relational state signup reads: existing users and roles. -/
structure AuthDb where
  users : List UserRow
  roles : List AuthRole

/-- The role-resolution ladder of `auth.py::signup`: first role named
`USER_ROLE_NAME`, else first role named `ADMIN_ROLE_NAME`, else create a new
`user` role (`createdRole` models the commit, whose failure is caught and
leaves the user without a role). -/
def resolve_signup_role_id (roles : List AuthRole) (createdRole : Except String ℕ) :
    Option ℕ :=
  match roles.find? (fun r => r.name == USER_ROLE_NAME) with
  | some r => some r.id
  | none =>
    match roles.find? (fun r => r.name == ADMIN_ROLE_NAME) with
    | some ar => some ar.id
    | none =>
      match createdRole with
      | Except.ok rid => some rid
      | Except.error _ => none

/-- `auth.py::signup`: reject an already-registered mobile number with a
400, otherwise create the user with the hashed password and the resolved
role id.  Password hashing is external and passed in as `hashed`; the final
`db.add/commit` of the user row is modelled as succeeding (its failure path
is an unrelated 500). -/
def signup (u : UserCreate) (db : AuthDb) (hashed : String)
    (createdRole : Except String ℕ) : Except HTTPError UserRow :=
  if db.users.any (fun x => x.mobile_number == u.mobile_number) then
    Except.error ⟨400, "Mobile number already registered"⟩
  else
    Except.ok ⟨u.mobile_number, hashed, u.email, resolve_signup_role_id db.roles createdRole⟩

/-! ### Concrete fixtures used by witnesses and counterexamples -/

/-- A chunk whose embedding equals the query embedding used in the
tie-breaking counterexample. -/
def tieChunkA : DocChunk := ⟨['a'], [(1 : ℝ)], "d1"⟩

/-- A second chunk with the same embedding, hence the same similarity. -/
def tieChunkB : DocChunk := ⟨['b'], [(1 : ℝ)], "d2"⟩

/-- The `users` table of the spec's prompt-content scenario. -/
def usersSchemaEx : TableSchema :=
  ⟨"users", [⟨"id", "integer", "NO"⟩, ⟨"name", "text", "YES"⟩], ["id"], []⟩

/-- The `orders` table of the spec's prompt-content scenario. -/
def ordersSchemaEx : TableSchema :=
  ⟨"orders", [⟨"id", "integer", "NO"⟩, ⟨"user_id", "integer", "NO"⟩], ["id"],
   [⟨"user_id", "users", "id"⟩]⟩

/-- RBAC counterexample state: role 10 grants permission 100 ("read"), and
user 1 is assigned role 10 through the many-to-many `user_role` table. -/
def rbacDbEx : RBACDb := ⟨[⟨10, "viewer"⟩], [⟨100, "read"⟩], [(10, 100)], [(1, 10)]⟩

/-- RBAC counterexample user: assigned role 10 via `user_role`, but with a
null primary `role_id`. -/
def rbacUserEx : UserRec := ⟨1, none⟩

/-! ### Theorems -/

/-- Claim C5 (counterexample): executing the fixed `/database/query`
environment in which the generated SQL fails with "syntax error" returns the
agent's `success=False` dictionary as a normal response — not a 500 carrying
the raw exception string, contrary to the claim. -/
theorem database_execute_query_sql_failure_counterexample :
    database_execute_query ⟨some "postgresql://u@h/db", Except.error "syntax error"⟩
        = Except.ok (AgentQueryResult.failure "syntax error") ∧
    database_execute_query ⟨some "postgresql://u@h/db", Except.error "syntax error"⟩
        ≠ Except.error ⟨500, "syntax error"⟩ := by
  exact ⟨rfl, by simp [database_execute_query, SQLAgent_execute_query]⟩

/-- Claim C5 (amended): when the connection record exists and the generated
SQL fails during execution with message `e`, the endpoint returns the
agent's `{"success": False, "error": e}` dictionary as a normal (non-error)
response carrying the raw exception string; it does not raise a 500. -/
theorem database_execute_query_sql_failure_is_success_false (cs e : String) :
    database_execute_query ⟨some cs, Except.error e⟩
      = Except.ok (AgentQueryResult.failure e) := rfl

/-- Claim C7 (counterexample): in `rbacDbEx`, user 1 is assigned role 10
through the many-to-many `user_role` table and role 10 grants "read", yet
`get_user_permissions` — which only consults the primary `role_id` column —
returns the empty set, not the union of the assigned roles' permissions. -/
theorem get_user_permissions_not_union_counterexample :
    get_user_permissions rbacUserEx rbacDbEx = [] ∧
    spec_union_role_permissions rbacUserEx rbacDbEx = ["read"] ∧
    get_user_permissions rbacUserEx rbacDbEx ≠ spec_union_role_permissions rbacUserEx rbacDbEx := by
  refine ⟨rfl, rfl, ?_⟩
  decide

/-- Claim C7 (amended): on every authorization check the computed permission
set is exactly the set of permission names joined to the user's single
primary role (`users.role_id`); it is empty when `role_id` is null (or the
falsy id 0), and the many-to-many `user_role` assignments are not consulted. -/
theorem get_user_permissions_primary_role_only (u : UserRec) (db : RBACDb) (n : String) :
    n ∈ get_user_permissions u db ↔
      ∃ rid, u.role_id = some rid ∧ rid ≠ 0 ∧
        ∃ p ∈ db.permissions, (rid, p.id) ∈ db.role_permissions ∧ p.name = n := by
  cases h : u.role_id with
  | none => simp [get_user_permissions, h]
  | some rid =>
    by_cases h0 : rid = 0
    · subst h0
      simp [get_user_permissions, h]
    · simp only [get_user_permissions, h, h0, if_false, List.mem_map, List.mem_filter,
        List.elem_iff, ne_eq, not_false_iff]
      constructor
      · rintro ⟨p, ⟨hp, hc⟩, hn⟩
        exact ⟨rid, rfl, h0, p, hp, hc, hn⟩
      · rintro ⟨rid2, hrid2, hne2, p, hp, hc, hn⟩
        cases hrid2 with
        | refl => exact ⟨p, ⟨hp, hc⟩, hn⟩

/-- Claim C9: when no role named `user` exists but a role named `admin`
does, signup assigns the admin role to the new user and succeeds; the
missing default role alone never fails the signup. -/
theorem signup_admin_fallback (u : UserCreate) (db : AuthDb) (hashed : String)
    (createdRole : Except String ℕ) (ar : AuthRole)
    (hU : db.roles.find? (fun r => r.name == USER_ROLE_NAME) = none)
    (hA : db.roles.find? (fun r => r.name == ADMIN_ROLE_NAME) = some ar)
    (hM : db.users.any (fun x => x.mobile_number == u.mobile_number) = false) :
    signup u db hashed createdRole
      = Except.ok ⟨u.mobile_number, hashed, u.email, some ar.id⟩ := by
  simp [signup, hM, resolve_signup_role_id, hU, hA]

/-- Witness for C9: a concrete store with only an `admin` role (id 7); the
fresh signup succeeds and the created user carries role id 7. -/
theorem signup_admin_fallback_witness :
    signup ⟨"9990001111", "pw", none⟩ ⟨[], [⟨7, "admin"⟩]⟩ "hashedpw" (Except.error "db down")
      = Except.ok ⟨"9990001111", "hashedpw", none, some 7⟩ :=
  signup_admin_fallback ⟨"9990001111", "pw", none⟩ ⟨[], [⟨7, "admin"⟩]⟩ "hashedpw"
    (Except.error "db down") ⟨7, "admin"⟩ (by decide) (by decide) (by decide)

/-- Claim C3 (code bug): the handler's own validation raises
`HTTPException(400, "Prompt is required")` for a missing or whitespace-only
prompt, but the blanket `except Exception` at the end of the `try:` block
catches that `HTTPException` and re-raises it as a 500 whose detail is
`str(e)` — so the client receives a server error, not the intended 4xx. -/
theorem query_documents_blank_prompt_gives_500 :
    query_documents ⟨some [' ', ' '], some (Sum.inr ["64a1b2"])⟩
        ⟨[], [], fun _ => "", fun _ => none⟩
      = Except.error ⟨500, "400: Prompt is required"⟩ ∧
    query_documents ⟨none, some (Sum.inr ["64a1b2"])⟩
        ⟨[], [], fun _ => "", fun _ => none⟩
      = Except.error ⟨500, "400: Prompt is required"⟩ :=
  ⟨rfl, rfl⟩

/-- Claim C4: with a valid non-blank prompt and a truthy document-id list,
when the chunk query finds no records the endpoint returns the canned
"no chunks found" response with an empty sources list as a normal result. -/
theorem query_documents_no_chunks_canned (req : QueryRequest) (env : QueryEnv)
    (p : List Char) (hp : req.prompt = some p) (hps : pyStrip p ≠ [])
    (hids : pyTruthyIds req.document_ids = true)
    (hc : env.chunksFound = []) :
    query_documents req env
      = Except.ok ⟨"No document chunks found for the specified documents.", []⟩ := by
  simp [query_documents, query_documents_inner, hp, hps, hids, hc]

/-- Witness for C4: a concrete request ("hi" over one unknown document id)
against a store with no matching chunks yields the canned response. -/
theorem query_documents_no_chunks_canned_witness :
    query_documents ⟨some ['h', 'i'], some (Sum.inr ["64a1b2"])⟩
        ⟨[], [], fun _ => "", fun _ => none⟩
      = Except.ok ⟨"No document chunks found for the specified documents.", []⟩ :=
  query_documents_no_chunks_canned ⟨some ['h', 'i'], some (Sum.inr ["64a1b2"])⟩
    ⟨[], [], fun _ => "", fun _ => none⟩ ['h', 'i'] rfl (by decide) (by decide) rfl

/-- Zipping a vector with itself multiplies each entry by itself: the dot
product of a vector with itself is its sum of squares. -/
theorem dotProduct_self (v : List ℝ) : dotProduct v v = sumSquares v := by
  induction v with
  | nil => rfl
  | cons a t ih =>
    simp only [dotProduct, sumSquares, List.zip_cons_cons, List.map_cons, List.sum_cons] at ih ⊢
    rw [ih]

/-- A sum of squares of reals is non-negative. -/
theorem sumSquares_nonneg (v : List ℝ) : 0 ≤ sumSquares v := by
  apply List.sum_nonneg
  intro x hx
  obtain ⟨a, _, rfl⟩ := List.mem_map.mp hx
  exact mul_self_nonneg a

/-- A sum of squares is positive as soon as one entry is non-zero. -/
theorem sumSquares_pos (v : List ℝ) (x : ℝ) (hx : x ∈ v) (hx0 : x ≠ 0) :
    0 < sumSquares v := by
  refine lt_of_lt_of_le (mul_self_pos.mpr hx0) ?_
  apply List.single_le_sum
  · intro y hy
    obtain ⟨a, _, rfl⟩ := List.mem_map.mp hy
    exact mul_self_nonneg a
  · exact List.mem_map.mpr ⟨x, hx, rfl⟩

/-- The magnitude computed by `_calculate_similarity` vanishes exactly when
the sum of squares does. -/
theorem magnitude_eq_zero_iff (v : List ℝ) : magnitude v = 0 ↔ sumSquares v = 0 := by
  rw [magnitude]
  exact Real.sqrt_eq_zero (sumSquares_nonneg v)

/-- Claim C2: for equal-length vectors, `_calculate_similarity` returns 0
whenever either magnitude is 0, returns `dot / (‖v1‖·‖v2‖)` whenever both
magnitudes are non-zero, and returns 1 on a pair of identical non-zero
vectors. -/
theorem calculate_similarity_spec (v1 v2 : List ℝ) (_hlen : v1.length = v2.length) :
    ((magnitude v1 = 0 ∨ magnitude v2 = 0) → calculate_similarity v1 v2 = 0) ∧
    (magnitude v1 ≠ 0 → magnitude v2 ≠ 0 →
      calculate_similarity v1 v2 = dotProduct v1 v2 / (magnitude v1 * magnitude v2)) ∧
    ((∃ x ∈ v1, x ≠ 0) → calculate_similarity v1 v1 = 1) := by
  refine ⟨?_, ?_, ?_⟩
  · intro h
    rcases h with h | h <;> simp [calculate_similarity, h]
  · intro h1 h2
    rw [calculate_similarity, if_neg (mul_ne_zero h1 h2)]
  · rintro ⟨x, hx, hx0⟩
    have hpos := sumSquares_pos v1 x hx hx0
    have hm : magnitude v1 * magnitude v1 = sumSquares v1 := by
      rw [magnitude]
      exact Real.mul_self_sqrt hpos.le
    have hne : magnitude v1 * magnitude v1 ≠ 0 := by
      rw [hm]
      exact ne_of_gt hpos
    rw [calculate_similarity, if_neg hne, dotProduct_self, hm, div_self (ne_of_gt hpos)]

/-- Witness for C2: the identical non-zero pair `[2], [2]` scores 1, and the
pair `[0], [3]` — whose first magnitude is 0 — scores 0. -/
theorem calculate_similarity_spec_witness :
    calculate_similarity [(2 : ℝ)] [(2 : ℝ)] = 1 ∧
    calculate_similarity [(0 : ℝ)] [(3 : ℝ)] = 0 := by
  constructor
  · exact (calculate_similarity_spec [(2 : ℝ)] [(2 : ℝ)] rfl).2.2
      ⟨2, by simp, by norm_num⟩
  · exact (calculate_similarity_spec [(0 : ℝ)] [(3 : ℝ)] rfl).1
      (Or.inl (by simp [magnitude, sumSquares]))

/-- Sorting permutes, so ranking keeps one scored entry per fetched chunk. -/
theorem rank_results_length (q : List ℝ) (cs : List DocChunk) :
    (rank_results q cs).length = cs.length := by
  rw [rank_results, (List.mergeSort_perm _ _).length_eq, List.length_map]

/-- The ranked list is weakly descending in similarity. -/
theorem rank_results_sorted (q : List ℝ) (cs : List DocChunk) :
    (rank_results q cs).Pairwise (fun a b => b.2 ≤ a.2) := by
  rw [rank_results]
  have h := @List.sorted_mergeSort (DocChunk × ℝ)
    (fun a b => decide (b.2 ≤ a.2))
    (fun a b c hab hbc => by
      simp only [decide_eq_true_eq] at hab hbc ⊢
      exact le_trans hbc hab)
    (fun a b => by
      simp only [Bool.or_eq_true, decide_eq_true_eq]
      exact le_total b.2 a.2)
    (cs.map (fun c => (c, calculate_similarity q c.embedding)))
  exact h.imp (fun hab => by simpa using hab)

/-- Every ranked entry is one of the fetched chunks paired with its
similarity to the query embedding. -/
theorem rank_results_mem (q : List ℝ) (cs : List DocChunk) (x : DocChunk × ℝ)
    (hx : x ∈ rank_results q cs) :
    ∃ c ∈ cs, x = (c, calculate_similarity q c.embedding) := by
  rw [rank_results] at hx
  have := (List.mergeSort_perm _ _).subset hx
  obtain ⟨c, hc, rfl⟩ := List.mem_map.mp this
  exact ⟨c, hc, rfl⟩

/-- Claim C1 (amended): the retrieval step returns exactly `min 5 N` scored
chunks, in descending (weakly, ties preserved) similarity order relative to
the query embedding. -/
theorem top_chunks_count_and_descending (q : List ℝ) (cs : List DocChunk) :
    (top_chunks q cs).length = min 5 cs.length ∧
    (top_chunks q cs).Pairwise (fun a b => b.2 ≤ a.2) := by
  constructor
  · rw [top_chunks, List.length_take, rank_results_length]
  · exact (rank_results_sorted q cs).sublist (List.take_sublist 5 _)

/-- The similarity of the `[1]`–`[1]` pair is exactly 1. -/
theorem calculate_similarity_one_one :
    calculate_similarity [(1 : ℝ)] [(1 : ℝ)] = 1 := by
  have h1 : sumSquares [(1 : ℝ)] = 1 := by simp [sumSquares]
  have hm : magnitude [(1 : ℝ)] = 1 := by rw [magnitude, h1, Real.sqrt_one]
  have hd : dotProduct [(1 : ℝ)] [(1 : ℝ)] = 1 := by simp [dotProduct]
  rw [calculate_similarity, hm, hd]
  norm_num

/-- Claim C1 (counterexample): with two chunks whose embeddings both equal
the query embedding, the two retained entries carry equal similarity 1, so
the returned order is not strictly descending. -/
theorem top_chunks_tie_not_strictly_descending :
    ¬ (top_chunks [(1 : ℝ)] [tieChunkA, tieChunkB]).Pairwise (fun a b => b.2 < a.2) := by
  intro hstrict
  have hlen : (top_chunks [(1 : ℝ)] [tieChunkA, tieChunkB]).length = 2 := by
    rw [top_chunks, List.length_take, rank_results_length]
    simp
  have hmem : ∀ x ∈ top_chunks [(1 : ℝ)] [tieChunkA, tieChunkB], x.2 = 1 := by
    intro x hx
    have hx' : x ∈ rank_results [(1 : ℝ)] [tieChunkA, tieChunkB] :=
      (List.take_sublist 5 _).subset hx
    obtain ⟨c, hc, rfl⟩ := rank_results_mem _ _ _ hx'
    have hce : c.embedding = [(1 : ℝ)] := by
      simp only [List.mem_cons, List.not_mem_nil, or_false] at hc
      rcases hc with rfl | rfl <;> rfl
    rw [hce]
    exact calculate_similarity_one_one
  obtain ⟨a, b, hab⟩ := List.length_eq_two.mp hlen
  rw [hab] at hstrict hmem
  have hba : b.2 < a.2 := by
    cases hstrict with
    | cons h1 _ => exact h1 b (List.mem_cons_self b [])
  have ha1 : a.2 = 1 := hmem a (by simp)
  have hb1 : b.2 = 1 := hmem b (by simp)
  rw [ha1, hb1] at hba
  exact lt_irrefl _ hba

/-- Every word emitted by `pySplitAux` from a whitespace-free accumulator is
non-empty and whitespace-free. -/
theorem pySplitAux_good (s : List Char) : ∀ cur, (∀ c ∈ cur, c.isWhitespace = false) →
    ∀ w ∈ pySplitAux s cur, w ≠ [] ∧ ∀ c ∈ w, c.isWhitespace = false := by
  induction s with
  | nil =>
    intro cur hcur w hw
    rw [pySplitAux] at hw
    by_cases h : cur = []
    · simp [h] at hw
    · rw [if_neg h, List.mem_singleton] at hw
      subst hw
      refine ⟨by simpa using h, ?_⟩
      intro c hc
      exact hcur c (List.mem_reverse.mp hc)
  | cons c cs ih =>
    intro cur hcur w hw
    rw [pySplitAux] at hw
    by_cases hc : c.isWhitespace = true
    · rw [if_pos hc] at hw
      by_cases h : cur = []
      · rw [if_pos h] at hw
        exact ih [] (by simp) w hw
      · rw [if_neg h] at hw
        rcases List.mem_cons.mp hw with rfl | hw2
        · refine ⟨by simpa using h, ?_⟩
          intro d hd
          exact hcur d (List.mem_reverse.mp hd)
        · exact ih [] (by simp) w hw2
    · rw [if_neg hc] at hw
      refine ih (c :: cur) ?_ w hw
      intro d hd
      rcases List.mem_cons.mp hd with rfl | hd2
      · exact Bool.not_eq_true _ ▸ (by simpa using hc)
      · exact hcur d hd2

/-- Every word of `text.split()` is non-empty and whitespace-free. -/
theorem pySplit_good (s : List Char) :
    ∀ w ∈ pySplit s, w ≠ [] ∧ ∀ c ∈ w, c.isWhitespace = false :=
  pySplitAux_good s [] (by simp)

/-- Scanning a whitespace-free word moves it wholesale into the accumulator. -/
theorem pySplitAux_word (w : List Char) (hw : ∀ c ∈ w, c.isWhitespace = false) :
    ∀ (rest cur : List Char), pySplitAux (w ++ rest) cur = pySplitAux rest (w.reverse ++ cur) := by
  induction w with
  | nil => intro rest cur; simp
  | cons c t ih =>
    intro rest cur
    have hc : c.isWhitespace = false := hw c (List.mem_cons_self c t)
    rw [List.cons_append, pySplitAux, hc]
    simp only [Bool.false_eq_true, if_false]
    rw [ih (fun d hd => hw d (List.mem_cons_of_mem c hd)) rest (c :: cur)]
    congr 1
    simp

/-- Splitting the space-join of non-empty whitespace-free words recovers the
words: `" ".join(ws).split() == ws`. -/
theorem pySplit_join (ws : List (List Char))
    (h : ∀ w ∈ ws, w ≠ [] ∧ ∀ c ∈ w, c.isWhitespace = false) :
    pySplit (pyJoin [' '] ws) = ws := by
  induction ws with
  | nil => rfl
  | cons w tail ih =>
    cases tail with
    | nil =>
      obtain ⟨hne, hcl⟩ := h w (List.mem_cons_self w [])
      rw [show pyJoin [' '] [w] = w from rfl, pySplit]
      rw [show w = w ++ ([] : List Char) by simp]
      rw [pySplitAux_word w (by simpa using hcl)]
      rw [pySplitAux]
      rw [if_neg (by simpa using hne)]
      simp
    | cons w2 t2 =>
      obtain ⟨hne, hcl⟩ := h w (List.mem_cons_self w (w2 :: t2))
      rw [show pyJoin [' '] (w :: w2 :: t2) = w ++ [' '] ++ pyJoin [' '] (w2 :: t2) from rfl,
        pySplit]
      rw [List.append_assoc]
      rw [pySplitAux_word w hcl]
      rw [List.singleton_append, pySplitAux]
      rw [if_pos (by decide)]
      rw [if_neg (by simpa using hne)]
      rw [List.append_nil, List.reverse_reverse]
      rw [show pySplitAux (pyJoin [' '] (w2 :: t2)) [] = pySplit (pyJoin [' '] (w2 :: t2)) from rfl]
      rw [ih (fun x hx => h x (List.mem_cons_of_mem w hx))]

/-- The chunking loop neither loses, duplicates, nor reorders words: the
word lists of the emitted chunks flatten to the pending accumulator followed
by the remaining words. -/
theorem split_text_go_words (csz : ℕ) (ws : List (List Char)) :
    ∀ (cur : List (List Char)) (size : ℕ),
    (∀ w ∈ ws, w ≠ [] ∧ ∀ c ∈ w, c.isWhitespace = false) →
    (∀ w ∈ cur, w ≠ [] ∧ ∀ c ∈ w, c.isWhitespace = false) →
    ((split_text_go csz ws cur size).map pySplit).flatten = cur ++ ws := by
  induction ws with
  | nil =>
    intro cur size hws hcur
    rw [split_text_go]
    by_cases h : cur = []
    · simp [h]
    · rw [if_neg h]
      simp [pySplit_join cur hcur]
  | cons w ws2 ih =>
    intro cur size hws hcur
    rw [split_text_go]
    by_cases hb : size + w.length + 1 > csz
    · rw [if_pos hb]
      simp only [List.map_cons, List.flatten_cons]
      rw [pySplit_join cur hcur]
      rw [ih [w] w.length (fun x hx => hws x (List.mem_cons_of_mem w hx))
        (by
          intro x hx
          rw [List.mem_singleton] at hx
          subst hx
          exact hws x (List.mem_cons_self x ws2))]
      simp
    · rw [if_neg hb]
      rw [ih (cur ++ [w]) (size + w.length + 1)
        (fun x hx => hws x (List.mem_cons_of_mem w hx))
        (by
          intro x hx
          rcases List.mem_append.mp hx with hx2 | hx2
          · exact hcur x hx2
          · rw [List.mem_singleton] at hx2
            subst hx2
            exact hws x (List.mem_cons_self x ws2))]
      simp

/-- Claim C8: for every text and positive chunk size, concatenating the word
lists of the chunks produced by `_split_text` recovers exactly the word list
of the original text. -/
theorem split_text_preserves_words (text : List Char) (chunk_size : ℕ)
    (_hpos : 0 < chunk_size) :
    ((split_text text chunk_size).map pySplit).flatten = pySplit text := by
  rw [split_text,
    split_text_go_words chunk_size (pySplit text) [] 0 (pySplit_good text) (by simp)]
  rfl

/-- Witness for C8: splitting `"hi a"` with chunk size 2 chunks into
`["", "hi", "a"]`-style pieces whose words re-concatenate to `["hi", "a"]`. -/
theorem split_text_preserves_words_witness :
    ((split_text ['h', 'i', ' ', 'a'] 2).map pySplit).flatten
      = pySplit ['h', 'i', ' ', 'a'] :=
  split_text_preserves_words ['h', 'i', ' ', 'a'] 2 (by decide)

/-- Claim C10: whenever the first word's length plus one exceeds the chunk
size, the splitter's first emitted chunk is the empty string; concretely,
splitting `"abcdef"` with chunk size 3 yields `["", "abcdef"]`, whose second
chunk exceeds the chunk size. -/
theorem split_text_first_chunk_empty :
    (∀ (text : List Char) (csz : ℕ) (w : List Char) (ws : List (List Char)),
        pySplit text = w :: ws → csz < w.length + 1 →
        (split_text text csz).head? = some []) ∧
    split_text ['a', 'b', 'c', 'd', 'e', 'f'] 3 = [[], ['a', 'b', 'c', 'd', 'e', 'f']] ∧
    3 < (['a', 'b', 'c', 'd', 'e', 'f'] : List Char).length := by
  refine ⟨?_, by decide, by decide⟩
  intro text csz w ws hsplit hlen
  rw [split_text, hsplit, split_text_go, if_pos (by omega)]
  rfl

/-- Witness for C10: the single word `"aa"` with chunk size 1 produces an
empty first chunk. -/
theorem split_text_first_chunk_empty_witness :
    (split_text ['a', 'a'] 1).head? = some [] :=
  split_text_first_chunk_empty.1 ['a', 'a'] 1 ['a', 'a'] [] (by decide) (by decide)

/-- A string is a substring of itself. -/
theorem strContains_refl (a : String) : strContains a a :=
  ⟨[], [], by simp⟩

/-- A substring of the left operand is a substring of the concatenation. -/
theorem strContains_append_left (a b n : String) (h : strContains a n) :
    strContains (a ++ b) n := by
  obtain ⟨s, t, hst⟩ := h
  exact ⟨s, t ++ b.data, by rw [String.data_append, ← hst]; simp⟩

/-- A substring of the right operand is a substring of the concatenation. -/
theorem strContains_append_right (a b n : String) (h : strContains b n) :
    strContains (a ++ b) n := by
  obtain ⟨s, t, hst⟩ := h
  exact ⟨a.data ++ s, t, by rw [String.data_append, ← hst]; simp⟩

/-- Substring containment is transitive. -/
theorem strContains_trans (a b c : String) (h1 : strContains a b) (h2 : strContains b c) :
    strContains a c :=
  h2.trans h1

/-- Every joined fragment is a substring of the join. -/
theorem joinSep_contains (sep : String) (l : List String) (x : String) (hx : x ∈ l) :
    strContains (joinSep sep l) x := by
  induction l with
  | nil => cases hx
  | cons y t ih =>
    cases t with
    | nil =>
      rw [List.mem_singleton] at hx
      subst hx
      exact strContains_refl x
    | cons z t2 =>
      rw [show joinSep sep (y :: z :: t2) = y ++ sep ++ joinSep sep (z :: t2) from rfl]
      rcases List.mem_cons.mp hx with rfl | hx2
      · exact strContains_append_left _ _ _ (strContains_append_left _ _ _ (strContains_refl x))
      · exact strContains_append_right _ _ _ (ih hx2)

/-- Every rendered item is a substring of the rendered JSON array. -/
theorem renderArr_contains (ind : ℕ) (items : List String) (x : String) (hx : x ∈ items) :
    strContains (renderArr ind items) x := by
  cases items with
  | nil => cases hx
  | cons y t =>
    rw [show renderArr ind (y :: t)
          = "[\n" ++ joinSep ",\n" (y :: t) ++ "\n" ++ pad ind ++ "]" from rfl]
    apply strContains_append_left
    apply strContains_append_left
    apply strContains_append_left
    exact strContains_append_right _ _ _ (joinSep_contains _ _ _ hx)

/-- A rendered schema object contains its rendered `columns` array. -/
theorem renderSchema_contains_columns (s : TableSchema) :
    strContains (renderSchema s) (renderColumnsArr s) := by
  rw [renderSchema]
  repeat first
    | exact strContains_append_right _ _ _ (strContains_refl _)
    | apply strContains_append_left

/-- A rendered schema object contains its rendered `primary_keys` array. -/
theorem renderSchema_contains_primary_keys (s : TableSchema) :
    strContains (renderSchema s) (renderPrimaryKeysArr s) := by
  rw [renderSchema]
  repeat first
    | exact strContains_append_right _ _ _ (strContains_refl _)
    | apply strContains_append_left

/-- A rendered schema object contains its rendered `foreign_keys` array. -/
theorem renderSchema_contains_foreign_keys (s : TableSchema) :
    strContains (renderSchema s) (renderForeignKeysArr s) := by
  rw [renderSchema]
  repeat first
    | exact strContains_append_right _ _ _ (strContains_refl _)
    | apply strContains_append_left

/-- Claim C6: the prompt assembled by `generate_sql_query` contains the
natural-language question and, for every listed table, the JSON renderings
of its column metadata (name, type, nullable), its primary-key columns and
its foreign-key relationships. -/
theorem generate_sql_prompt_embeds_schema (historyJson agentStateJson : String)
    (schemas : List TableSchema) (q : String) :
    strContains (generate_sql_prompt historyJson agentStateJson schemas q) q ∧
    ∀ s ∈ schemas,
      strContains (generate_sql_prompt historyJson agentStateJson schemas q)
        (renderColumnsArr s) ∧
      strContains (generate_sql_prompt historyJson agentStateJson schemas q)
        (renderPrimaryKeysArr s) ∧
      strContains (generate_sql_prompt historyJson agentStateJson schemas q)
        (renderForeignKeysArr s) := by
  have hschemas : strContains (generate_sql_prompt historyJson agentStateJson schemas q)
      (renderSchemas schemas) := by
    rw [generate_sql_prompt]
    repeat first
      | exact strContains_append_right _ _ _ (strContains_refl _)
      | apply strContains_append_left
  constructor
  · rw [generate_sql_prompt]
    repeat first
      | exact strContains_append_right _ _ _ (strContains_refl _)
      | apply strContains_append_left
  · intro s hs
    have hs1 : strContains (renderSchemas schemas) (renderSchema s) := by
      rw [renderSchemas]
      exact renderArr_contains 0 _ _ (List.mem_map_of_mem renderSchema hs)
    have hs2 : strContains (generate_sql_prompt historyJson agentStateJson schemas q)
        (renderSchema s) := strContains_trans _ _ _ hschemas hs1
    exact ⟨strContains_trans _ _ _ hs2 (renderSchema_contains_columns s),
      strContains_trans _ _ _ hs2 (renderSchema_contains_primary_keys s),
      strContains_trans _ _ _ hs2 (renderSchema_contains_foreign_keys s)⟩

/-- Witness for C6: the concrete `users`/`orders` scenario of the spec, with
the question "list orders": the prompt contains the question and the
rendered column metadata of the `users` table. -/
theorem generate_sql_prompt_embeds_schema_witness :
    strContains
      (generate_sql_prompt "[]" "\x7b\x7d" [usersSchemaEx, ordersSchemaEx] "list orders")
      "list orders" ∧
    strContains
      (generate_sql_prompt "[]" "\x7b\x7d" [usersSchemaEx, ordersSchemaEx] "list orders")
      (renderColumnsArr usersSchemaEx) :=
  ⟨(generate_sql_prompt_embeds_schema "[]" "\x7b\x7d" [usersSchemaEx, ordersSchemaEx]
      "list orders").1,
   ((generate_sql_prompt_embeds_schema "[]" "\x7b\x7d" [usersSchemaEx, ordersSchemaEx]
      "list orders").2 usersSchemaEx (by simp)).1⟩
